import Mathlib

/-!
Verification development for the Academic Research Analyzer repository
(document feature extraction and review scoring pipeline).

The Python sources modelled here are:
  * `utils/review_generator.py`  — scoring, recommendation, narrative generation
  * `utils/pdf_processor.py`     — section extraction, citation counting
  * `utils/citation_extractor.py`— citation extraction and statistics
  * `utils/text_analyzer.py`     — text statistics

Python floats are modelled as exact rationals (`ℚ`); all arithmetic in the
claims stays well inside the range where float and rational agree.
Python dicts are modelled as association lists in insertion order.
-/

set_option autoImplicit false

/-! ## Small Python string helpers -/

/-- Python whitespace characters (the ASCII ones used by `str.split`/`str.strip`). -/
def pyIsSpace (c : Char) : Bool :=
  c = ' ' || c = '\t' || c = '\n' || c = '\r' || c = '\x0b' || c = '\x0c'

/-- Split a character list on runs of whitespace, dropping empty pieces:
Python `str.split()` with no argument. -/
def pySplitChars : List Char → List (List Char)
  | [] => []
  | c :: cs =>
    if pyIsSpace c then pySplitChars cs
    else
      match pySplitChars cs with
      | [] => [[c]]
      | w :: ws => if pyIsSpace (cs.headD ' ') then [c] :: w :: ws else (c :: w) :: ws

/-- Python `text.split()`. -/
def pySplit (s : String) : List String :=
  (pySplitChars s.data).map List.asString

/-- Python `str.strip()` (no argument): remove leading and trailing whitespace. -/
def pyStrip (s : String) : String :=
  (((s.data.dropWhile pyIsSpace).reverse.dropWhile pyIsSpace).reverse).asString

/-- Python `str.lower()` (ASCII inputs). -/
def pyLower (s : String) : String :=
  (s.data.map Char.toLower).asString

/-- Test whether `needle` occurs as a contiguous substring of `hay`
(Python `needle in hay`). -/
def listIsInfix (needle hay : List Char) : Bool :=
  match hay with
  | [] => needle.isEmpty
  | _ :: t => needle.isPrefixOf hay || listIsInfix needle t

/-- Python `needle in hay` on strings. -/
def pyContains (hay needle : String) : Bool :=
  listIsInfix needle.data hay.data

/-- Python `str.replace(pat, rep)` on character lists: replace every
non-overlapping occurrence, scanning left to right.  (Structural recursion
on fuel so the kernel can evaluate it; each step consumes one character or a
whole non-empty occurrence of `pat`.) -/
def listReplace (pat rep : List Char) : ℕ → List Char → List Char
  | 0, s => s
  | _ + 1, [] => []
  | fuel + 1, c :: cs =>
    if pat.isPrefixOf (c :: cs) && !pat.isEmpty then
      rep ++ listReplace pat rep fuel ((c :: cs).drop pat.length)
    else c :: listReplace pat rep fuel cs

/-- Python `s.replace(pat, rep)`. -/
def pyReplace (s pat rep : String) : String :=
  (listReplace pat.data rep.data (s.length + 1) s.data).asString

/-- Python `s.split(sep)` for a one-character separator (the only form the
sources use: `text.split('\n')`), keeping empty pieces. -/
def splitOnChar (sep : Char) : List Char → List (List Char)
  | [] => [[]]
  | c :: cs =>
    let rest := splitOnChar sep cs
    if c = sep then [] :: rest
    else
      match rest with
      | [] => [[c]]
      | w :: ws => (c :: w) :: ws

/-- Python `text.split('\n')`. -/
def pySplitLines (s : String) : List String :=
  (splitOnChar '\n' s.data).map List.asString

/-- Python `sep.join(pieces)`. -/
def pyJoin (sep : String) : List String → String
  | [] => ""
  | [x] => x
  | x :: rest => x ++ sep ++ pyJoin sep rest

/-! ## Review scoring (`utils/review_generator.py`) -/

/-- Clamp used throughout `_calculate_scores`: `min(10, max(1, x))`. -/
def clamp110 (x : ℚ) : ℚ := min 10 (max 1 x)

/-- `sum(criteria.values())` in `_calculate_overall_score`
(`utils/review_generator.py`, line 229). -/
def total_weight (criteria : List (String × ℤ)) : ℤ :=
  (criteria.map (·.2)).sum

/-- `sum(scores[k] * criteria[k] for k in scores.keys() if k in criteria)`
(`utils/review_generator.py`, line 230). -/
def weighted_sum (scores : List (String × ℚ)) (criteria : List (String × ℤ)) : ℚ :=
  (scores.filterMap (fun p => (List.lookup p.1 criteria).map (fun w => p.2 * (w : ℚ)))).sum

/-- `_calculate_overall_score` (`utils/review_generator.py`, lines 227–231):
`weighted_sum / total_weight if total_weight > 0 else 7.0`. -/
def calculate_overall_score (scores : List (String × ℚ)) (criteria : List (String × ℤ)) : ℚ :=
  if 0 < total_weight criteria then weighted_sum scores criteria / (total_weight criteria : ℚ)
  else 7

/-- `_get_recommendation` (`utils/review_generator.py`, lines 233–242). -/
def get_recommendation (overall_score : ℚ) : String :=
  if overall_score ≥ 8.5 then "Accept"
  else if overall_score ≥ 7.0 then "Minor Revision"
  else if overall_score ≥ 5.5 then "Major Revision"
  else "Reject"

/-- C3: the recommendation is a function of the overall score alone, with the
fixed non-overlapping thresholds 8.5 / 7.0 / 5.5 evaluated high to low. -/
theorem C3_recommendation_thresholds (x : ℚ) :
    (8.5 ≤ x → get_recommendation x = "Accept") ∧
    (7.0 ≤ x ∧ x < 8.5 → get_recommendation x = "Minor Revision") ∧
    (5.5 ≤ x ∧ x < 7.0 → get_recommendation x = "Major Revision") ∧
    (x < 5.5 → get_recommendation x = "Reject") := by
  unfold get_recommendation
  refine ⟨fun h => ?_, fun h => ?_, fun h => ?_, fun h => ?_⟩ <;>
    split_ifs with h1 h2 h3 <;> first | rfl | linarith [h.1, h.2] | linarith

/-- C3 witness: the boundary values named by the claim, checked concretely:
8.5 is an Accept, 8.49999 and 7.0 are Minor Revisions, 5.5 is a Major Revision. -/
theorem C3_recommendation_thresholds_witness :
    ((8.5 : ℚ) ≤ 8.5 ∧ get_recommendation 8.5 = "Accept") ∧
    ((7.0 : ℚ) ≤ 8.49999 ∧ (8.49999 : ℚ) < 8.5 ∧
      get_recommendation 8.49999 = "Minor Revision") ∧
    ((7.0 : ℚ) ≤ 7.0 ∧ (7.0 : ℚ) < 8.5 ∧ get_recommendation 7.0 = "Minor Revision") ∧
    ((5.5 : ℚ) ≤ 5.5 ∧ (5.5 : ℚ) < 7.0 ∧ get_recommendation 5.5 = "Major Revision") ∧
    ((5.49 : ℚ) < 5.5 ∧ get_recommendation 5.49 = "Reject") :=
  ⟨⟨by norm_num, (C3_recommendation_thresholds 8.5).1 (by norm_num)⟩,
   ⟨by norm_num, by norm_num, (C3_recommendation_thresholds 8.49999).2.1 (by norm_num)⟩,
   ⟨by norm_num, by norm_num, (C3_recommendation_thresholds 7.0).2.1 (by norm_num)⟩,
   ⟨by norm_num, by norm_num, (C3_recommendation_thresholds 5.5).2.2.1 (by norm_num)⟩,
   ⟨by norm_num, (C3_recommendation_thresholds 5.49).2.2.2 (by norm_num)⟩⟩

/-! ## A small backtracking regex engine

The Python sources drive everything through `re.findall` / `re.finditer` /
`re.search`.  We embed the exact patterns appearing in the sources as terms of
a small regex language and compute, for a pattern at a given position, the
list of all candidate matches in Python's backtracking preference order
(alternation: left first; `*` greedy: longer first; `*?` lazy: shorter first).
The head of that list is the match Python's engine returns.  Repetition
iterations are required to consume at least one character, which matches
Python's behaviour (its engine breaks a repetition loop that stops
consuming); with fuel `length + 1` the fuel can therefore never run out. -/

/-- A match candidate: remaining suffix, and capture group 1 (if set). -/
abbrev MRes := List Char × Option (List Char)

inductive RE where
  | eps
  | pred (p : Char → Bool)
  | cat (a b : RE)
  | alt (a b : RE)
  | star (a : RE)
  | starL (a : RE)
  | grp (a : RE)
  | look (a : RE)
  | eos

/-- Later group bindings win (Python keeps the last binding of a group);
in the patterns modelled here at most one side ever binds the group. -/
def mergeG (g1 g2 : Option (List Char)) : Option (List Char) :=
  match g2 with
  | some g => some g
  | none => g1

/-- Syntactic size of a pattern (for the fuel bound). -/
def sizeR : RE → ℕ
  | .eps => 1
  | .eos => 1
  | .pred _ => 1
  | .cat a b => sizeR a + sizeR b + 1
  | .alt a b => sizeR a + sizeR b + 1
  | .star a => sizeR a + 1
  | .starL a => sizeR a + 1
  | .grp a => sizeR a + 1
  | .look a => sizeR a + 1

/-- All candidate matches of `r` against `s`, in Python preference order.
Structural recursion on fuel, so that the kernel can evaluate it; every
recursive step decrements the fuel by one, and along any call chain either
the pattern shrinks (input no longer) or — for a repetition step — the
input strictly shrinks, so a chain is never longer than
`sizeR r * (s.length + 1)`; `allMatches` below supplies that much fuel and
the `fuel = 0` branch is unreachable from it. -/
def allM : ℕ → RE → List Char → List MRes
  | 0, _, _ => []
  | _ + 1, .eps, s => [(s, none)]
  | _ + 1, .eos, s => if s.isEmpty then [(s, none)] else []
  | _ + 1, .pred _, [] => []
  | _ + 1, .pred p, c :: cs => if p c then [(cs, none)] else []
  | fuel + 1, .cat a b, s =>
    (allM fuel a s).flatMap (fun r1 =>
      (allM fuel b r1.1).map (fun r2 => (r2.1, mergeG r1.2 r2.2)))
  | fuel + 1, .alt a b, s => allM fuel a s ++ allM fuel b s
  | fuel + 1, .star a, s =>
    ((allM fuel a s).flatMap (fun r1 =>
      if r1.1.length < s.length then
        (allM fuel (.star a) r1.1).map (fun r2 => (r2.1, mergeG r1.2 r2.2))
      else [])) ++ [(s, none)]
  | fuel + 1, .starL a, s =>
    (s, none) :: ((allM fuel a s).flatMap (fun r1 =>
      if r1.1.length < s.length then
        (allM fuel (.starL a) r1.1).map (fun r2 => (r2.1, mergeG r1.2 r2.2))
      else []))
  | fuel + 1, .grp a, s =>
    (allM fuel a s).map (fun r => (r.1, some (s.take (s.length - r.1.length))))
  | fuel + 1, .look a, s => if (allM fuel a s).isEmpty then [] else [(s, none)]

/-- All candidate matches at this position, with sufficient fuel. -/
def allMatches (r : RE) (s : List Char) : List MRes :=
  allM (sizeR r * (s.length + 1) + 1) r s

/-- Python `\w`. -/
def wordChar (c : Char) : Bool := c.isAlphanum || c = '_'

/-- Scan a string left to right, collecting the non-overlapping matches that
`re.finditer`/`re.findall` produce.  `needB` marks a pattern that begins with
`\b` immediately followed by a word character (the only form of a leading
word boundary in the sources): such a pattern can match at a position only if
the preceding character is absent or is not a word character (when the
preceding character IS absent/non-word but the next char is also non-word,
Python's `\b` fails too, and so does the pattern's leading word-character
predicate, so the two agree).  After an (impossible for these patterns)
empty match the scan advances one character, as Python does. -/
def scanAllF (r : RE) (needB : Bool) : ℕ → Option Char → List Char →
    List (List Char × Option (List Char))
  | 0, _, _ => []
  | fuel + 1, prev, s =>
    let blocked := needB && (match prev with | some c => wordChar c | none => false)
    let mres := if blocked then none else (allMatches r s).head?
    match mres with
    | some res =>
      let n := s.length - res.1.length
      if 0 < n then
        (s.take n, res.2) :: scanAllF r needB fuel ((s.take n).getLast?) (s.drop n)
      else
        match s with
        | [] => [(([] : List Char), res.2)]
        | c :: cs => ([], res.2) :: scanAllF r needB fuel (some c) cs
    | none =>
      match s with
      | [] => []
      | c :: cs => scanAllF r needB fuel (some c) cs

/-- The scan with sufficient fuel (every step consumes at least one input
character, so `length + 1` steps always finish the input). -/
def scanAll (r : RE) (needB : Bool) (prev : Option Char) (s : List Char) :
    List (List Char × Option (List Char)) :=
  scanAllF r needB (s.length + 1) prev s

/-- `re.findall` for a pattern with exactly one capture group: Python returns
`group(1)` of each match (falling back to the whole match if the group never
participated — which cannot happen for the patterns modelled here). -/
def findallGroup (r : RE) (needB : Bool) (s : List Char) : List (List Char) :=
  (scanAll r needB none s).map (fun m => m.2.getD m.1)

/-- `re.finditer`, keeping each match's `group(0)` text. -/
def finditerRaw (r : RE) (s : List Char) : List (List Char) :=
  (scanAll r false none s).map (·.1)

/-- `re.search`: text of the first match, if any. -/
def reSearch (r : RE) (needB : Bool) (s : List Char) : Option (List Char) :=
  ((scanAll r needB none s).head?).map (·.1)

/-! ### Pattern combinators -/

/-- Literal character. -/
def REchr (c : Char) : RE := .pred (· = c)

/-- Case-insensitive literal character (for `(?i)` patterns). -/
def REichr (c : Char) : RE := .pred (fun x => x.toLower = c.toLower)

/-- Literal string. -/
def RElit (s : String) : RE := s.data.foldr (fun c r => .cat (REchr c) r) .eps

/-- Case-insensitive literal string. -/
def REilit (s : String) : RE := s.data.foldr (fun c r => .cat (REichr c) r) .eps

/-- Greedy `?`. -/
def REopt (a : RE) : RE := .alt a .eps

/-- `+`. -/
def REplus (a : RE) : RE := .cat a (.star a)

/-- Sequence. -/
def REcat (l : List RE) : RE := l.foldr .cat .eps

/-- First-preference alternation of a non-empty list. -/
def REaltn (l : List RE) : RE :=
  match l with
  | [] => .eps
  | [a] => a
  | a :: rest => .alt a (REaltn rest)

/-- Character class given by a list. -/
def REcls (cs : List Char) : RE := .pred (fun c => cs.contains c)

/-- `\d`. -/
def REdigit : RE := .pred Char.isDigit

/-- `[A-Z]`. -/
def REupper : RE := .pred (fun c => 'A' ≤ c && c ≤ 'Z')

/-- `[a-z]`. -/
def RElowerC : RE := .pred (fun c => 'a' ≤ c && c ≤ 'z')

/-- `[a-zA-Z]`. -/
def REalphaC : RE := .pred (fun c => ('a' ≤ c && c ≤ 'z') || ('A' ≤ c && c ≤ 'Z'))

/-- `\s`. -/
def REws : RE := .pred pyIsSpace

/-- `\w`. -/
def REwordC : RE := .pred wordChar

/-- `.` under `re.DOTALL`. -/
def REany : RE := .pred (fun _ => true)

/-- `\b` at a position whose preceding pattern element matched a word
character: succeeds iff the next input character is absent or non-word. -/
def REbAfterWord : RE := .alt (.look (.pred (fun c => !wordChar c))) .eos

/-- `\d{4}`. -/
def REyear4 : RE := REcat [REdigit, REdigit, REdigit, REdigit]

/-! ## Citation counting (`utils/pdf_processor.py`, `count_citations`)

The five patterns of `citation_patterns` (lines 267–273), transliterated
one for one.  Each has exactly one capture group, so `re.findall` returns
the group-1 text of every match. -/

/-- `(?:\s+et\s+al\.?)`. -/
def REetal : RE :=
  REcat [REplus REws, RElit "et", REplus REws, RElit "al", REopt (REchr '.')]

/-- `[-–,\s]` (hyphen, en-dash, comma, whitespace). -/
def REdashCls : RE := .pred (fun c => c = '-' || c = '–' || c = ',' || pyIsSpace c)

/-- `\[(\d+(?:[-–,\s]*\d*)*)\]`  — `[1]`, `[1-3]`, `[1, 2, 3]`. -/
def pat_bracket : RE :=
  REcat [REchr '[',
    .grp (REcat [REplus REdigit, .star (REcat [.star REdashCls, .star REdigit])]),
    REchr ']']

/-- `[A-Z][a-zA-Z]+(?:\s+et\s+al\.?)?,?\s*\d{4}[a-z]?` — shared core of the
author-year patterns. -/
def REauthorYearCore : RE :=
  REcat [REupper, REplus REalphaC, REopt REetal, REopt (REchr ','), .star REws,
    REyear4, REopt RElowerC]

/-- `\(([A-Z][a-zA-Z]+(?:\s+et\s+al\.?)?,?\s*\d{4}[a-z]?)\)` — `(Author 2020)`. -/
def pat_author_year : RE :=
  REcat [REchr '(', .grp REauthorYearCore, REchr ')']

/-- `\(([A-Z][a-zA-Z]+\s+(?:and|&)\s+[A-Z][a-zA-Z]+,?\s*\d{4})\)`. -/
def pat_two_author : RE :=
  REcat [REchr '(',
    .grp (REcat [REupper, REplus REalphaC, REplus REws, .alt (RElit "and") (REchr '&'),
      REplus REws, REupper, REplus REalphaC, REopt (REchr ','), .star REws, REyear4]),
    REchr ')']

/-- `\(([A-Z][a-zA-Z]+(?:\s+et\s+al\.?)?,?\s*\d{4}[a-z]?(?:;\s*[A-Z][a-zA-Z]+(?:\s+et\s+al\.?)?,?\s*\d{4}[a-z]?)*)\)`. -/
def pat_multi : RE :=
  REcat [REchr '(',
    .grp (REcat [REauthorYearCore,
      .star (REcat [REchr ';', .star REws, REauthorYearCore])]),
    REchr ')']

/-- `([A-Z][a-zA-Z]+(?:\s+et\s+al\.?)?\s+\(\d{4}[a-z]?\))` — `Author (2020)`. -/
def pat_inline : RE :=
  .grp (REcat [REupper, REplus REalphaC, REopt REetal, REplus REws, REchr '(',
    REyear4, REopt RElowerC, REchr ')'])

/-- The `citation_patterns` list of `count_citations`, in source order. -/
def pdfCitationPatterns : List RE :=
  [pat_bracket, pat_author_year, pat_two_author, pat_multi, pat_inline]

/-! ### Year extraction inside `count_citations`

For each citation match string the code runs
`re.findall(r'\b(19|20)\d{2}\b', str(match))` and converts each result with
`int(...)`.  `re.findall` returns the CAPTURE GROUP `(19|20)`, i.e. only the
first two characters, so the extracted "years" are the integers 19 and 20.
The scanner below hand-compiles that findall.  It advances one character
after a match instead of four; the two are equivalent because inside a
four-digit match the intermediate positions all have a word (digit)
character before them, so `\b` rules out any overlapping match there. -/

/-- Is a `\b` satisfied just before a word character at this position? -/
def boundaryBefore (prev : Option Char) : Bool :=
  match prev with
  | none => true
  | some c => !wordChar c

/-- `int(...)` of a two-character digit group. -/
def int_of_two (c1 c2 : Char) : ℕ := (c1.toNat - 48) * 10 + (c2.toNat - 48)

/-- The trailing `\b` of the year pattern: the previous character is a digit,
so the boundary holds iff the next character is absent or non-word. -/
def noWordAfter : List Char → Bool
  | [] => true
  | c :: _ => !wordChar c

/-- Try `\b(19|20)\d{2}\b` at the current position; on success return
`int(group(1))`. -/
def tryYear (prev : Option Char) : List Char → Option ℕ
  | c1 :: c2 :: c3 :: c4 :: rest =>
    if boundaryBefore prev
        && (((c1 = '1') && (c2 = '9')) || ((c1 = '2') && (c2 = '0')))
        && c3.isDigit && c4.isDigit && noWordAfter rest then
      some (int_of_two c1 c2)
    else none
  | _ => none

/-- All `int(group(1))` values of `re.findall(r'\b(19|20)\d{2}\b', s)`. -/
def yearScan : Option Char → List Char → List ℕ
  | _, [] => []
  | prev, c :: cs =>
    match tryYear prev (c :: cs) with
    | some y => y :: yearScan (some c) cs
    | none => yearScan (some c) cs

/-- The dictionary `count_citations` returns
(`utils/pdf_processor.py`, lines 299–306). -/
structure CitationStats where
  total_citations : ℕ
  unique_years : ℕ
  recent_citations : ℕ
  citation_density : ℚ
  year_range : String
  avg_year : ℚ

/-- `all_citations` of `count_citations`: the findall results of the five
patterns, concatenated in pattern order. -/
def pdf_all_citations (text : String) : List (List Char) :=
  pdfCitationPatterns.flatMap (fun p => findallGroup p false text.data)

/-- `citation_years` of `count_citations`: the year-findall values over every
match string. -/
def pdf_citation_years (text : String) : List ℕ :=
  (pdf_all_citations text).flatMap (fun m => yearScan none m)

/-- `count_citations` (`utils/pdf_processor.py`, lines 256–306).
`current_year` is the fixed constant 2024 (line 292). -/
def count_citations (text : String) : CitationStats :=
  let unique_citations := (pdf_all_citations text).dedup
  let unique_years := (pdf_citation_years text).dedup
  let current_year : ℕ := 2024
  let recent_citations := unique_years.filter (fun y => current_year - 10 ≤ y)
  let word_count := (pySplit text).length
  { total_citations := unique_citations.length
    unique_years := unique_years.length
    recent_citations := recent_citations.length
    citation_density := (unique_citations.length : ℚ) / ((max word_count 1 : ℕ) : ℚ) * 1000
    year_range := if unique_years.length ≠ 0 then
        toString (unique_years.min?.getD 0) ++ "-" ++ toString (unique_years.max?.getD 0)
      else "N/A"
    avg_year := if unique_years.length ≠ 0 then
        (unique_years.sum : ℚ) / (unique_years.length : ℚ)
      else 0 }

/-! ## Citation extraction (`utils/citation_extractor.py`)

The five `citation_patterns` of `CitationExtractor.__init__` (lines 12–18),
transliterated one for one.  `extract_citations` keeps each match's whole
text (`match.group(0)`), so no capture marker is needed here. -/

/-- `[a-zA-Z\s,&]`. -/
def REapaCls : RE :=
  .pred (fun c => ('a' ≤ c && c ≤ 'z') || ('A' ≤ c && c ≤ 'Z') || pyIsSpace c || c = ',' || c = '&')

/-- `apa_author_year`: `\(([A-Z][a-zA-Z\s,&]+),?\s*(\d{4}[a-c]?)\)`. -/
def epat_apa : RE :=
  REcat [REchr '(', REupper, REplus REapaCls, REopt (REchr ','), .star REws,
    REyear4, REopt (REcls ['a', 'b', 'c']), REchr ')']

/-- `numbered_citation`: `\[(\d+(?:,\s*\d+)*)\]`. -/
def epat_numbered : RE :=
  REcat [REchr '[', REplus REdigit,
    .star (REcat [REchr ',', .star REws, REplus REdigit]), REchr ']']

/-- `superscript_citation`: `(\w+)\^(\d+)`. -/
def epat_superscript : RE :=
  REcat [REplus REwordC, REchr '^', REplus REdigit]

/-- `author_year_inline`: `([A-Z][a-zA-Z]+\s+(?:et\s+al\.?\s*)?)\((\d{4}[a-c]?)\)`. -/
def epat_inline : RE :=
  REcat [REupper, REplus REalphaC, REplus REws,
    REopt (REcat [RElit "et", REplus REws, RElit "al", REopt (REchr '.'), .star REws]),
    REchr '(', REyear4, REopt (REcls ['a', 'b', 'c']), REchr ')']

/-- `journal_citation`: `([A-Z][a-zA-Z\s,&]+)\.\s*([^.]+)\.\s*([^,]+),?\s*(\d{4})`. -/
def epat_journal : RE :=
  REcat [REupper, REplus REapaCls, REchr '.', .star REws,
    REplus (.pred (fun c => c ≠ '.')), REchr '.', .star REws,
    REplus (.pred (fun c => c ≠ ',')), REopt (REchr ','), .star REws, REyear4]

/-- `citation_patterns` in dict insertion order. -/
def extractorPatterns : List RE :=
  [epat_apa, epat_numbered, epat_superscript, epat_inline, epat_journal]

/-- The deduplication signature of `_deduplicate_citations`
(`utils/citation_extractor.py`, line 273): `raw_text.strip().lower()`. -/
def citation_signature (raw : String) : String := pyLower (pyStrip raw)

/-- Worker for `_deduplicate_citations`: keep a citation iff its signature is
non-empty and unseen. -/
def dedupBySig (seen : List String) : List String → List String
  | [] => []
  | c :: rest =>
    if citation_signature c ≠ "" && !(seen.contains (citation_signature c)) then
      c :: dedupBySig (citation_signature c :: seen) rest
    else dedupBySig seen rest

/-- `_deduplicate_citations` (`utils/citation_extractor.py`, lines 266–279),
on the citations' raw texts. -/
def deduplicate_citations (citations : List String) : List String :=
  dedupBySig [] citations

/-- `extract_citations` (`utils/citation_extractor.py`, lines 37–69), keeping
each citation's `raw_text`.  Every pattern yields a well-formed citation dict
(`_parse_citation` cannot fail on these groups), so the result is exactly the
matches of the five patterns, in pattern order, deduplicated by signature. -/
def extract_citations (text : String) : List String :=
  if text = "" then []
  else deduplicate_citations
    ((extractorPatterns.flatMap (fun p => finditerRaw p text.data)).map List.asString)

/-- The `citation_density` field computed by `get_citation_statistics`
(`utils/citation_extractor.py`, line 364):
`len(citations) / len(text.split()) if text else 0` — citations per WORD,
with no `× 1000` factor.  (When the text is non-empty but has zero words
Python raises `ZeroDivisionError`; `ℚ` division returns 0 there.  No claim
exercises that corner.) -/
def extractor_citation_density (text : String) : ℚ :=
  if text ≠ "" then ((extract_citations text).length : ℚ) / ((pySplit text).length : ℚ)
  else 0

/-! ## Section extraction (`utils/pdf_processor.py`, `extract_sections`)

The ten `section_patterns` (lines 230–241), transliterated one for one.  All
are `(?i)` case-insensitive and searched with `re.DOTALL`.  Each is
`START.*?(?=\n\s*(?:TERMINATORS|\Z))` for some start alternatives and
terminator alternatives.  The Boolean flag marks the two patterns whose
start begins with `\b` (handled by the scanner's `needB`). -/

/-- `X.*?(?=\n\s*(?:alts))` where one of `alts` may be `\Z`. -/
def RESectTail (alts : List RE) : RE :=
  REcat [.starL REany, .look (REcat [REchr '\n', .star REws, REaltn alts])]

/-- `keywords?` (case-insensitive). -/
def REkeywords : RE := REcat [REilit "keyword", REopt (REichr 's')]

/-- `1\.?\s*introduction` (case-insensitive), and the analogous numbered
variants. -/
def REnumbered (d : Char) (rest : RE) : RE :=
  REcat [REchr d, REopt (REchr '.'), .star REws, rest]

/-- `N\.?\s*` with nothing after it (used as a bare terminator). -/
def REnumberedBare (d : Char) : RE := REcat [REchr d, REopt (REchr '.'), .star REws]

/-- `related\s+work`. -/
def RErelatedWork : RE := REcat [REilit "related", REplus REws, REilit "work"]

/-- `literature\s+review`. -/
def RElitReview : RE := REcat [REilit "literature", REplus REws, REilit "review"]

/-- `(?i)\babstract\b.*?(?=\n\s*(?:keywords?|introduction|1\.?\s*introduction|background|§|\Z))`. -/
def spat_abstract : RE :=
  REcat [REilit "abstract", REbAfterWord,
    RESectTail [REkeywords, REilit "introduction", REnumbered '1' (REilit "introduction"),
      REilit "background", REchr '§', .eos]]

/-- `(?i)\bkeywords?\b.*?(?=\n\s*(?:introduction|1\.?\s*introduction|background|§|\Z))`. -/
def spat_keywords : RE :=
  REcat [REkeywords, REbAfterWord,
    RESectTail [REilit "introduction", REnumbered '1' (REilit "introduction"),
      REilit "background", REchr '§', .eos]]

/-- `(?i)(?:introduction|1\.?\s*introduction).*?(?=\n\s*(?:related\s+work|literature\s+review|background|methodology|methods|2\.?\s*|§|\Z))`. -/
def spat_introduction : RE :=
  REcat [.alt (REilit "introduction") (REnumbered '1' (REilit "introduction")),
    RESectTail [RErelatedWork, RElitReview, REilit "background", REilit "methodology",
      REilit "methods", REnumberedBare '2', REchr '§', .eos]]

/-- `(?i)(?:related\s+work|literature\s+review|background|2\.?\s*(?:related|literature|background)).*?(?=\n\s*(?:methodology|methods|approach|3\.?\s*|§|\Z))`. -/
def spat_literature_review : RE :=
  REcat [REaltn [RErelatedWork, RElitReview, REilit "background",
      REnumbered '2' (REaltn [REilit "related", REilit "literature", REilit "background"])],
    RESectTail [REilit "methodology", REilit "methods", REilit "approach",
      REnumberedBare '3', REchr '§', .eos]]

/-- `(?i)(?:methodology|methods|approach|3\.?\s*(?:methodology|methods|approach)).*?(?=\n\s*(?:results|experiments?|evaluation|implementation|4\.?\s*|§|\Z))`. -/
def spat_methodology : RE :=
  REcat [REaltn [REilit "methodology", REilit "methods", REilit "approach",
      REnumbered '3' (REaltn [REilit "methodology", REilit "methods", REilit "approach"])],
    RESectTail [REilit "results", REcat [REilit "experiment", REopt (REichr 's')],
      REilit "evaluation", REilit "implementation", REnumberedBare '4', REchr '§', .eos]]

/-- `(?i)(?:results|experiments?|evaluation|4\.?\s*(?:results|experiments?|evaluation)).*?(?=\n\s*(?:discussion|analysis|conclusion|5\.?\s*|§|\Z))`. -/
def spat_results : RE :=
  REcat [REaltn [REilit "results", REcat [REilit "experiment", REopt (REichr 's')],
      REilit "evaluation",
      REnumbered '4' (REaltn [REilit "results", REcat [REilit "experiment", REopt (REichr 's')],
        REilit "evaluation"])],
    RESectTail [REilit "discussion", REilit "analysis", REilit "conclusion",
      REnumberedBare '5', REchr '§', .eos]]

/-- `(?i)(?:discussion|analysis|5\.?\s*(?:discussion|analysis)).*?(?=\n\s*(?:conclusion|summary|6\.?\s*|§|\Z))`. -/
def spat_discussion : RE :=
  REcat [REaltn [REilit "discussion", REilit "analysis",
      REnumbered '5' (REaltn [REilit "discussion", REilit "analysis"])],
    RESectTail [REilit "conclusion", REilit "summary", REnumberedBare '6', REchr '§', .eos]]

/-- `(?i)(?:conclusion|conclusions?|summary|6\.?\s*(?:conclusion|summary)).*?(?=\n\s*(?:references?|bibliography|acknowledgments?|appendix|§|\Z))`. -/
def spat_conclusion : RE :=
  REcat [REaltn [REilit "conclusion", REcat [REilit "conclusion", REopt (REichr 's')],
      REilit "summary", REnumbered '6' (REaltn [REilit "conclusion", REilit "summary"])],
    RESectTail [REcat [REilit "reference", REopt (REichr 's')], REilit "bibliography",
      REcat [REilit "acknowledgment", REopt (REichr 's')], REilit "appendix", REchr '§', .eos]]

/-- `(?i)(?:references?|bibliography).*?(?=\n\s*(?:appendix|§|\Z))`. -/
def spat_references : RE :=
  REcat [.alt (REcat [REilit "reference", REopt (REichr 's')]) (REilit "bibliography"),
    RESectTail [REilit "appendix", REchr '§', .eos]]

/-- `(?i)(?:acknowledgments?|acknowledgements?).*?(?=\n\s*(?:references?|bibliography|appendix|§|\Z))`. -/
def spat_acknowledgments : RE :=
  REcat [.alt (REcat [REilit "acknowledgment", REopt (REichr 's')])
      (REcat [REilit "acknowledgement", REopt (REichr 's')]),
    RESectTail [REcat [REilit "reference", REopt (REichr 's')], REilit "bibliography",
      REilit "appendix", REchr '§', .eos]]

/-- `section_patterns` in dict insertion order; the flag marks a leading `\b`. -/
def sectionPatterns : List (String × RE × Bool) :=
  [("abstract", spat_abstract, true),
   ("keywords", spat_keywords, true),
   ("introduction", spat_introduction, false),
   ("literature_review", spat_literature_review, false),
   ("methodology", spat_methodology, false),
   ("results", spat_results, false),
   ("discussion", spat_discussion, false),
   ("conclusion", spat_conclusion, false),
   ("references", spat_references, false),
   ("acknowledgments", spat_acknowledgments, false)]

/-- `extract_sections` (`utils/pdf_processor.py`, lines 217–254): for each
pattern take the first match, strip it, drop its first line when more than
one line is present, and keep the section iff the content is non-empty. -/
def extract_sections (text : String) : List (String × String) :=
  sectionPatterns.filterMap (fun entry =>
    match reSearch entry.2.1 entry.2.2 text.data with
    | none => none
    | some m =>
      let content := pyStrip m.asString
      let lines := pySplitLines content
      let content' := if 1 < lines.length then pyStrip (pyJoin "\n" lines.tail)
        else content
      if content' ≠ "" then some (entry.1, content') else none)

/-! ## Text statistics (`utils/text_analyzer.py`, `get_text_statistics`)

`get_text_statistics` begins with `if not text: return {}` — for the empty
string it returns an EMPTY dict, with none of the count keys present.  We
model the returned dict as `Option TextStats`: `none` is the empty dict, and
`some` is the fully-populated dict built for non-empty text.  The body of the
function (for non-empty text) tokenizes via NLTK / `textstat`, which are
external collaborators; we therefore keep the body as a parameter, since
every claim about this function is decided by the guard alone. -/

/-- The keys of the dict returned for non-empty text
(`utils/text_analyzer.py`, lines 99–112). -/
structure TextStats where
  word_count : ℕ
  sentence_count : ℕ
  paragraph_count : ℕ
  character_count : ℕ
  unique_words : ℕ
  lexical_diversity : ℚ
  avg_words_per_sentence : ℚ
  avg_chars_per_word : ℚ
  avg_syllables_per_word : ℚ
  syllable_count : ℕ
  technical_ratio : ℚ
  pos_distribution : List (String × ℕ)

/-- The all-zero statistics record the specification expects for empty
input ("empty string ⇒ all counts zero"). -/
def zeroTextStats : TextStats :=
  { word_count := 0, sentence_count := 0, paragraph_count := 0, character_count := 0
    unique_words := 0, lexical_diversity := 0, avg_words_per_sentence := 0
    avg_chars_per_word := 0, avg_syllables_per_word := 0, syllable_count := 0
    technical_ratio := 0, pos_distribution := [] }

/-- `get_text_statistics` (`utils/text_analyzer.py`, lines 58–112):
`if not text: return {}`, otherwise the populated dict. -/
def get_text_statistics (body : String → TextStats) (text : String) : Option TextStats :=
  if text = "" then none else some (body text)

/-! ## Review generation (`utils/review_generator.py`)

`analysis_results` is an `Optional[Dict]` of sub-dicts; each sub-dict's keys
are read with `.get(key, default)` where the default varies per call site.
We model the outer dict as `Option AnalysisResults` with one `Option` field
per sub-dict, and each sub-dict's entries as `Option` fields read via
`Option.getD` with the call site's default.  (A present-but-empty outer dict
is falsy in Python and skips all adjustments; it behaves exactly like a
record whose fields are all `none`, because each adjustment also checks its
own sub-dict's presence.)

`random.choice` (used for strength/weakness phrasing) is modelled by an
explicit stream of indices `rng : List ℕ` consumed left to right — one entry
per `random.choice` call — and `datetime.now().strftime("%Y-%m-%d")` by an
explicit `today : String` parameter: those are the process-global hidden
inputs of `generate_review`. -/

/-- `analysis_results['keywords']`. -/
structure KeywordsInfo where
  academic_keyword_coverage : Option ℚ

/-- `analysis_results['structure']`.  (`structure` is a Lean keyword.) -/
structure StructureInfo where
  has_methodology : Option Bool
  has_results : Option Bool
  balance_score : Option ℚ
  abstract_quality : Option ℚ
  total_sections : Option ℕ

/-- `analysis_results['readability']`. -/
structure ReadabilityInfo where
  flesch_score : Option ℚ
  avg_sentence_length : Option ℚ
  grade_level : Option String

/-- `analysis_results['citations']`. -/
structure CitationsInfo where
  citation_density : Option ℚ

/-- The outer `analysis_results` dict. -/
structure AnalysisResults where
  keywords : Option KeywordsInfo
  structInfo : Option StructureInfo
  readability : Option ReadabilityInfo
  citations : Option CitationsInfo
  academic_quality : Option (List (String × ℚ))

/-- `np.mean` of a value list.  (`np.mean([])` is NaN in Python with a
runtime warning; no claim exercises an empty `academic_quality` dict, and the
model returns 0 there.) -/
def npMean (l : List ℚ) : ℚ := if l.length = 0 then 0 else l.sum / (l.length : ℚ)

/-- `base_scores.get(k, default)` where `base_scores = criteria`. -/
def baseScore (criteria : List (String × ℤ)) (k : String) (d : ℚ) : ℚ :=
  match List.lookup k criteria with
  | some w => (w : ℚ)
  | none => d

/-- `_calculate_scores` (`utils/review_generator.py`, lines 172–225).
Returns the `scores` dict as an association list in insertion order: first
the criteria adjusted from analysis results (novelty, methodology, clarity,
significance — whichever sub-dicts are present), then the fill-in loop's
unadjusted criteria in its fixed order. -/
def calculate_scores (criteria : List (String × ℤ)) (analysis : Option AnalysisResults) :
    List (String × ℚ) :=
  let adjusted : List (String × ℚ) :=
    match analysis with
    | none => []
    | some ar =>
      (match ar.keywords with
       | some kw =>
         [("novelty", clamp110 (baseScore criteria "novelty" 7 +
            (kw.academic_keyword_coverage.getD 0) / 5 * 2 - 1))]
       | none => []) ++
      (match ar.structInfo with
       | some st =>
         [("methodology", clamp110 (baseScore criteria "methodology" 7 +
            ((if st.has_methodology.getD false then 1 else 0) +
             (if st.has_results.getD false then 1 else 0)) - 1))]
       | none => []) ++
      (match ar.readability with
       | some rd =>
         let f := rd.flesch_score.getD 50
         let adj := if f ≥ 60 then (f - 60) / 20 else (f - 60) / 30
         [("clarity", clamp110 (baseScore criteria "clarity" 7 + adj))]
       | none => []) ++
      (match ar.citations, ar.academic_quality with
       | some ci, some q =>
         [("significance", clamp110 (baseScore criteria "significance" 7 +
            ((ci.citation_density.getD (1/2) - 1/2) * 2 + npMean (q.map (·.2)) * 2) - 1))]
       | _, _ => [])
  adjusted ++
    ((["novelty", "methodology", "clarity", "significance"].filter
        (fun c => (List.lookup c adjusted).isNone)).map
      (fun c => (c, baseScore criteria c 7)))

/-! ### Narrative template pools (`ReviewGenerator.__init__`, lines 36–88) -/

/-- `strength_patterns['high_novelty']`. -/
def strengthHighNovelty : List String :=
  ["The paper presents a novel approach to {topic}",
   "The research addresses an important gap in {field}",
   "The proposed method is innovative and well-motivated",
   "The work introduces original concepts that advance the field"]

/-- `strength_patterns['strong_methodology']`. -/
def strengthStrongMethodology : List String :=
  ["The methodology is rigorous and well-designed",
   "The experimental setup is comprehensive and appropriate",
   "The authors employ sound research methods",
   "The approach is methodologically robust"]

/-- `strength_patterns['clear_presentation']`. -/
def strengthClearPresentation : List String :=
  ["The paper is well-written and clearly structured",
   "The presentation is clear and easy to follow",
   "The writing quality is high with good organization",
   "The paper effectively communicates its contributions"]

/-- `strength_patterns['significant_impact']`. -/
def strengthSignificantImpact : List String :=
  ["The work has clear practical implications",
   "The results demonstrate significant improvements",
   "The findings contribute meaningfully to the field",
   "The research addresses an important problem"]

/-- `weakness_patterns['low_novelty']`. -/
def weaknessLowNovelty : List String :=
  ["The novelty of the approach is limited",
   "The contribution appears incremental",
   "Similar approaches have been explored previously",
   "The innovation over existing work is unclear"]

/-- `weakness_patterns['weak_methodology']`. -/
def weaknessWeakMethodology : List String :=
  ["The methodology lacks sufficient detail",
   "The experimental design has notable limitations",
   "The evaluation could be more comprehensive",
   "The validation is insufficient for the claims made"]

/-- `weakness_patterns['unclear_presentation']`. -/
def weaknessUnclearPresentation : List String :=
  ["The presentation could be clearer in several areas",
   "Some sections are difficult to follow",
   "The writing quality needs improvement",
   "The organization could be better structured"]

/-- `weakness_patterns['limited_significance']`. -/
def weaknessLimitedSignificance : List String :=
  ["The practical impact is not clearly demonstrated",
   "The significance of the results is unclear",
   "The broader implications need better articulation",
   "The relevance to the field could be stronger"]

/-- `.format(topic="the research area", field="the field")` applied to a
`high_novelty` template (`_generate_strengths`, lines 253–255). -/
def pyFormatTopicField (s : String) : String :=
  pyReplace (pyReplace s "{topic}" "the research area") "{field}" "the field"

/-- `random.choice(pool)`, reading one index from the explicit random
stream.  An exhausted stream falls back to the first template (the streams
used in the claims are always long enough). -/
def rchoice (pool : List String) (rng : List ℕ) : String × List ℕ :=
  match rng with
  | [] => (pool.getD 0 "", [])
  | n :: rest => (pool.getD (n % pool.length) "", rest)

/-- The score-driven part of `_generate_strengths` (lines 250–261): one
random strength per criterion scoring ≥ 8.0, in the `scores` dict's
iteration order. -/
def scoreStrengths : List (String × ℚ) → List ℕ → List String × List ℕ
  | [], rng => ([], rng)
  | (c, sc) :: rest, rng =>
    if sc ≥ 8 then
      if c = "novelty" then
        let pick := rchoice strengthHighNovelty rng
        let next := scoreStrengths rest pick.2
        (pyFormatTopicField pick.1 :: next.1, next.2)
      else if c = "methodology" then
        let pick := rchoice strengthStrongMethodology rng
        let next := scoreStrengths rest pick.2
        (pick.1 :: next.1, next.2)
      else if c = "clarity" then
        let pick := rchoice strengthClearPresentation rng
        let next := scoreStrengths rest pick.2
        (pick.1 :: next.1, next.2)
      else if c = "significance" then
        let pick := rchoice strengthSignificantImpact rng
        let next := scoreStrengths rest pick.2
        (pick.1 :: next.1, next.2)
      else scoreStrengths rest rng
    else scoreStrengths rest rng

/-- The analysis-driven part of `_generate_strengths` (lines 263–278). -/
def analysisStrengths (analysis : Option AnalysisResults) : List String :=
  match analysis with
  | none => []
  | some ar =>
    (match ar.readability with
     | some rd =>
       if rd.flesch_score.getD 50 ≥ 70 then
         ["The paper demonstrates excellent readability and accessibility"]
       else []
     | none => []) ++
    (match ar.structInfo with
     | some st =>
       if st.balance_score.getD 0 ≥ 0.8 then
         ["The paper is well-structured with balanced sections"]
       else []
     | none => []) ++
    (match ar.citations with
     | some ci =>
       if ci.citation_density.getD 0 ≥ 1 then
         ["The work demonstrates comprehensive literature coverage"]
       else []
     | none => [])

/-- `_generate_strengths` (lines 244–287); also returns the rest of the
random stream. -/
def generate_strengths (scores : List (String × ℚ)) (analysis : Option AnalysisResults)
    (rng : List ℕ) : List String × List ℕ :=
  let picked := scoreStrengths scores rng
  let l := picked.1 ++ analysisStrengths analysis
  let l' := if l.length < 2 then
      l ++ ["The research addresses a relevant problem in the field",
            "The paper makes a meaningful contribution to the literature"]
    else l
  (l'.take 5, picked.2)

/-- The score-driven part of `_generate_weaknesses` (lines 294–304): one
random weakness per criterion scoring ≤ 6.0. -/
def scoreWeaknesses : List (String × ℚ) → List ℕ → List String × List ℕ
  | [], rng => ([], rng)
  | (c, sc) :: rest, rng =>
    if sc ≤ 6 then
      if c = "novelty" then
        let pick := rchoice weaknessLowNovelty rng
        let next := scoreWeaknesses rest pick.2
        (pick.1 :: next.1, next.2)
      else if c = "methodology" then
        let pick := rchoice weaknessWeakMethodology rng
        let next := scoreWeaknesses rest pick.2
        (pick.1 :: next.1, next.2)
      else if c = "clarity" then
        let pick := rchoice weaknessUnclearPresentation rng
        let next := scoreWeaknesses rest pick.2
        (pick.1 :: next.1, next.2)
      else if c = "significance" then
        let pick := rchoice weaknessLimitedSignificance rng
        let next := scoreWeaknesses rest pick.2
        (pick.1 :: next.1, next.2)
      else scoreWeaknesses rest rng
    else scoreWeaknesses rest rng

/-- The analysis-driven part of `_generate_weaknesses` (lines 306–323). -/
def analysisWeaknesses (analysis : Option AnalysisResults) : List String :=
  match analysis with
  | none => []
  | some ar =>
    (match ar.readability with
     | some rd =>
       if rd.flesch_score.getD 50 < 40 then
         ["The text complexity may hinder accessibility to broader audiences"]
       else []
     | none => []) ++
    (match ar.structInfo with
     | some st =>
       (if !(st.has_methodology.getD true) then
         ["The methodology section needs strengthening or clarification"]
       else []) ++
       (if st.abstract_quality.getD 1 < 0.5 then
         ["The abstract could be more comprehensive and informative"]
       else [])
     | none => []) ++
    (match ar.citations with
     | some ci =>
       if ci.citation_density.getD 1 < 0.3 then
         ["The literature review could be more comprehensive"]
       else []
     | none => [])

/-- `_generate_weaknesses` (lines 289–329); also returns the rest of the
random stream. -/
def generate_weaknesses (scores : List (String × ℚ)) (analysis : Option AnalysisResults)
    (rng : List ℕ) : List String × List ℕ :=
  let picked := scoreWeaknesses scores rng
  let l := picked.1 ++ analysisWeaknesses analysis
  let l' := if l.length = 0 then
      l ++ ["Minor improvements in presentation could enhance the paper's impact"]
    else l
  (l'.take 4, picked.2)

/-- The score-driven part of `_generate_suggestions` (lines 336–358): two
fixed suggestions per criterion scoring ≤ 7.0. -/
def scoreSuggestions : List (String × ℚ) → List String
  | [] => []
  | (c, sc) :: rest =>
    (if sc ≤ 7 then
      if c = "novelty" then
        ["Consider highlighting the novel aspects more prominently",
         "Provide clearer differentiation from existing work"]
      else if c = "methodology" then
        ["Expand the methodology section with more implementation details",
         "Include additional validation or comparison studies"]
      else if c = "clarity" then
        ["Improve the organization and flow of the paper",
         "Add more explanatory text for complex concepts"]
      else if c = "significance" then
        ["Better articulate the practical implications of the work",
         "Discuss broader impact and future applications"]
      else []
    else []) ++ scoreSuggestions rest

/-- The analysis-driven part of `_generate_suggestions` (lines 360–370). -/
def analysisSuggestions (analysis : Option AnalysisResults) : List String :=
  match analysis with
  | none => []
  | some ar =>
    (match ar.readability with
     | some rd =>
       if rd.avg_sentence_length.getD 20 > 25 then
         ["Consider breaking down long sentences for improved readability"]
       else []
     | none => []) ++
    (match ar.keywords with
     | some kw =>
       if kw.academic_keyword_coverage.getD 5 < 3 then
         ["Strengthen the use of domain-specific terminology"]
       else []
     | none => [])

/-- First-occurrence deduplication.  Python's `list(set(...))` keeps an
order determined by the interpreter's string hashing — fixed within one
process, so two calls in the same process agree; the model fixes
first-occurrence order. -/
def dedupKeepFirst (seen : List String) : List String → List String
  | [] => []
  | x :: rest =>
    if seen.contains x then dedupKeepFirst seen rest
    else x :: dedupKeepFirst (x :: seen) rest

/-- `_generate_suggestions` (lines 331–378): score- and analysis-driven
suggestions, two general ones, `list(set(...))[:6]`. -/
def generate_suggestions (scores : List (String × ℚ)) (analysis : Option AnalysisResults) :
    List String :=
  (dedupKeepFirst []
    (scoreSuggestions scores ++ analysisSuggestions analysis ++
     ["Consider adding more visual aids (figures, tables) to support the narrative",
      "Strengthen the conclusion with clearer implications and future work directions"])).take 6

/-! ### Paper info, templates, comments, summary -/

/-- The result of `_extract_paper_info` (lines 133–170). -/
structure PaperInfo where
  title : String
  subject : String
  contribution : String

/-- `_extract_paper_info` (lines 133–170): title = first of the first ten
lines with more than 3 words and under 200 characters; subject and
contribution from fixed substring checks on the lowercased text. -/
def extract_paper_info (text : String) : PaperInfo :=
  let lines := pySplitLines text
  let title :=
    match ((lines.take 10).filter
        (fun l => 3 < (pySplit l).length && l.length < 200)).head? with
    | some l => pyStrip l
    | none => "Research Paper"
  let lower := pyLower text
  let subject :=
    if pyContains lower "machine learning" || pyContains lower "artificial intelligence" then
      "machine learning and AI applications"
    else if pyContains lower "deep learning" || pyContains lower "neural network" then
      "deep learning methodologies"
    else if pyContains lower "natural language" || pyContains lower "nlp" then
      "natural language processing"
    else if pyContains lower "computer vision" || pyContains lower "image" then
      "computer vision techniques"
    else "the research topic"
  let contribution :=
    if pyContains lower "novel" || pyContains lower "new" then
      "novel methodological contributions"
    else if pyContains lower "improve" || pyContains lower "better" then
      "performance improvements"
    else if pyContains lower "framework" || pyContains lower "system" then
      "systematic framework development"
    else "novel insights"
  { title := title, subject := subject, contribution := contribution }

/-- One entry of `review_templates` (lines 12–33).  The per-template
`criteria_weights` are never read by `generate_review` and are omitted. -/
structure ReviewTemplate where
  intro : String
  structureDesc : String

/-- `self.review_templates.get(review_type, self.review_templates['Peer Review'])`. -/
def review_templates (review_type : String) : ReviewTemplate :=
  if review_type = "Academic Conference" then
    { intro := "This paper presents {subject} and proposes {contribution}. The review evaluates the work based on conference standards for novelty, technical quality, and clarity."
      structureDesc := "conference paper format" }
  else if review_type = "Journal Review" then
    { intro := "This manuscript investigates {subject} and contributes {contribution}. The review assesses the work according to journal standards for originality, rigor, and impact."
      structureDesc := "journal article format" }
  else if review_type = "Thesis Defense" then
    { intro := "This thesis explores {subject} and demonstrates {contribution}. The evaluation focuses on the depth of research, methodological rigor, and contribution to the field."
      structureDesc := "thesis format" }
  else
    { intro := "This work addresses {subject} and claims {contribution}. The peer review examines the validity, clarity, and relevance of the research."
      structureDesc := "research paper format" }

/-- `template['intro'].format(subject=..., contribution=...)`. -/
def formatSubjectContribution (s subject contribution : String) : String :=
  pyReplace (pyReplace s "{subject}" subject) "{contribution}" contribution

/-- `_generate_detailed_comments` (lines 380–421). -/
def generate_detailed_comments (text : String) (analysis : Option AnalysisResults)
    (review_type : String) : String :=
  let info := extract_paper_info text
  let template := review_templates review_type
  let intro := formatSubjectContribution template.intro info.subject info.contribution
  let comments := [intro] ++ ["\n**Structure and Organization:**"] ++
    (match analysis with
     | some ar =>
       (match ar.structInfo with
        | some st =>
          ["The paper follows a " ++ template.structureDesc ++ " with " ++
             (match st.total_sections with | some n => toString n | none => "several") ++
             " main sections."] ++
          (if st.abstract_quality.getD (1/2) ≥ 0.7 then
            ["The abstract effectively summarizes the work."]
          else
            ["The abstract could benefit from better summarization of key contributions."])
        | none => [])
     | none => []) ++
    ["\n**Technical Content:**"] ++
    (match analysis with
     | some ar =>
       (match ar.academic_quality with
        | some q =>
          (if ((List.lookup "methodology_rigor" q).getD (1/2)) ≥ 0.6 then
            ["The methodology demonstrates good rigor and systematic approach."]
          else []) ++
          (if ((List.lookup "evidence_strength" q).getD (1/2)) ≥ 0.6 then
            ["The evidence presented supports the claims made."]
          else [])
        | none => [])
     | none => []) ++
    ["\n**Presentation Quality:**"] ++
    (match analysis with
     | some ar =>
       (match ar.readability with
        | some rd =>
          ["The writing is at " ++ rd.grade_level.getD "Graduate" ++
           " level, which is appropriate for the target audience."]
        | none => [])
     | none => [])
  pyJoin "\n" comments

/-- Python `"{:.1f}".format` on the scores appearing here (round to the
nearest tenth; the claims never exercise an exact tie, where binary-float
formatting could differ). -/
def fmt1 (q : ℚ) : String :=
  let n : ℤ := ⌊q * 10 + 1 / 2⌋
  toString (n / 10) ++ "." ++ toString (n % 10)

/-- `_generate_summary` (lines 423–429). -/
def generate_summary (info : PaperInfo) (overall : ℚ) (recommendation : String) : String :=
  "This paper on " ++ info.subject ++ " receives an overall score of " ++ fmt1 overall ++
  "/10 with a recommendation of '" ++ recommendation ++ "'. The work shows " ++
  info.contribution ++ " and demonstrates " ++
  (if overall ≥ 7.5 then "strong" else if overall ≥ 6 then "adequate" else "limited") ++
  " quality across the evaluation criteria."

/-- The dict `generate_review` returns (lines 120–131). -/
structure Review where
  overall_score : ℚ
  recommendation : String
  detailed_scores : List (String × ℚ)
  strengths : List String
  weaknesses : List String
  suggestions : List String
  detailed_comments : String
  review_type : String
  review_date : String
  summary : String

/-- `generate_review` (lines 90–131).  `rng` is the hidden stream behind the
`random.choice` calls (strengths first, then weaknesses, as called on lines
115–116); `today` is `datetime.now().strftime("%Y-%m-%d")`. -/
def generate_review (paper_text : String) (criteria : List (String × ℤ))
    (review_type : String) (analysis : Option AnalysisResults)
    (rng : List ℕ) (today : String) : Review :=
  let info := extract_paper_info paper_text
  let scores := calculate_scores criteria analysis
  let overall := calculate_overall_score scores criteria
  let recommendation := get_recommendation overall
  let st := generate_strengths scores analysis rng
  let wk := generate_weaknesses scores analysis st.2
  { overall_score := overall
    recommendation := recommendation
    detailed_scores := scores
    strengths := st.1
    weaknesses := wk.1
    suggestions := generate_suggestions scores analysis
    detailed_comments := generate_detailed_comments paper_text analysis review_type
    review_type := review_type
    review_date := today
    summary := generate_summary info overall recommendation }

/-! ## C10: overall score with zero total weight / missing criteria keys -/

/-- C10: `_calculate_overall_score` returns exactly 7.0 when the criteria
weights sum to zero (e.g. an empty weights map) instead of dividing by zero,
and the weighted sum ranges only over criteria present in both the scores
map and the weights map: an entry whose key is missing from the weights map
contributes nothing at all to the overall score. -/
theorem C10_zero_weights_and_missing_keys
    (scores : List (String × ℚ)) (criteria : List (String × ℤ)) :
    (total_weight criteria = 0 → calculate_overall_score scores criteria = 7) ∧
    (∀ (k : String) (s : ℚ), List.lookup k criteria = none →
      calculate_overall_score ((k, s) :: scores) criteria =
        calculate_overall_score scores criteria) := by
  constructor
  · intro h
    simp [calculate_overall_score, h]
  · intro k s hk
    simp [calculate_overall_score, weighted_sum, hk]

/-- C10 witness: the empty weights map yields 7.0, and a score entry whose
key is absent from the weights map leaves the overall score unchanged. -/
theorem C10_zero_weights_and_missing_keys_witness :
    total_weight ([] : List (String × ℤ)) = 0 ∧
    calculate_overall_score [("novelty", (5 : ℚ))] [] = 7 ∧
    List.lookup "extra" [("novelty", (3 : ℤ))] = none ∧
    calculate_overall_score [("extra", (9 : ℚ)), ("clarity", (4 : ℚ))] [("novelty", (3 : ℤ))] =
      calculate_overall_score [("clarity", (4 : ℚ))] [("novelty", (3 : ℤ))] :=
  ⟨rfl,
   (C10_zero_weights_and_missing_keys [("novelty", (5 : ℚ))] []).1 rfl,
   by decide,
   (C10_zero_weights_and_missing_keys [("clarity", (4 : ℚ))] [("novelty", (3 : ℤ))]).2
     "extra" 9 (by decide)⟩

/-! ## C9: the review is never empty-handed -/

/-- C9: for every scores map, every (possibly absent) analysis-results
record and every random stream, `_generate_strengths` yields at least 2
strengths and `_generate_weaknesses` at least 1 weakness: generic fallback
statements fill any shortfall before the lists are capped. -/
theorem C9_min_strengths_weaknesses (scores : List (String × ℚ))
    (analysis : Option AnalysisResults) (rng rng' : List ℕ) :
    2 ≤ (generate_strengths scores analysis rng).1.length ∧
    1 ≤ (generate_weaknesses scores analysis rng').1.length := by
  constructor
  · have key : ∀ l : List String, 2 ≤ ((if l.length < 2 then
        l ++ ["The research addresses a relevant problem in the field",
              "The paper makes a meaningful contribution to the literature"]
      else l).take 5).length := by
      intro l
      split_ifs with h <;> simp only [List.length_take, List.length_append] <;>
        simp <;> omega
    simpa [generate_strengths] using
      key ((scoreStrengths scores rng).1 ++ analysisStrengths analysis)
  · have key : ∀ l : List String, 1 ≤ ((if l.length = 0 then
        l ++ ["Minor improvements in presentation could enhance the paper's impact"]
      else l).take 4).length := by
      intro l
      split_ifs with h <;> simp only [List.length_take, List.length_append] <;>
        simp <;> omega
    simpa [generate_weaknesses] using
      key ((scoreWeaknesses scores rng').1 ++ analysisWeaknesses analysis)

/-! ## C2: determinism of review generation -/

/-- C2 (amended): with the hidden inputs made explicit, `generate_review` is
deterministic, and every output field EXCEPT the strength and weakness lists
and the review date is independent of the hidden unseeded `random.choice`
stream and of the current date: the numeric scores, the recommendation, the
suggestion list, the narrative comments and the summary depend only on the
declared inputs. -/
theorem C2_deterministic_apart_from_rng_and_date (paper_text : String)
    (criteria : List (String × ℤ)) (review_type : String)
    (analysis : Option AnalysisResults) (rng1 rng2 : List ℕ) (d1 d2 : String) :
    (generate_review paper_text criteria review_type analysis rng1 d1).overall_score =
      (generate_review paper_text criteria review_type analysis rng2 d2).overall_score ∧
    (generate_review paper_text criteria review_type analysis rng1 d1).recommendation =
      (generate_review paper_text criteria review_type analysis rng2 d2).recommendation ∧
    (generate_review paper_text criteria review_type analysis rng1 d1).detailed_scores =
      (generate_review paper_text criteria review_type analysis rng2 d2).detailed_scores ∧
    (generate_review paper_text criteria review_type analysis rng1 d1).suggestions =
      (generate_review paper_text criteria review_type analysis rng2 d2).suggestions ∧
    (generate_review paper_text criteria review_type analysis rng1 d1).detailed_comments =
      (generate_review paper_text criteria review_type analysis rng2 d2).detailed_comments ∧
    (generate_review paper_text criteria review_type analysis rng1 d1).summary =
      (generate_review paper_text criteria review_type analysis rng2 d2).summary ∧
    (generate_review paper_text criteria review_type analysis rng1 d1).review_type =
      (generate_review paper_text criteria review_type analysis rng2 d2).review_type :=
  ⟨rfl, rfl, rfl, rfl, rfl, rfl, rfl⟩

/-- The four-criterion weights map used in the concrete review runs. -/
def cexCriteria : List (String × ℤ) :=
  [("novelty", 10), ("methodology", 10), ("clarity", 10), ("significance", 10)]

/-- C2 counterexample: two runs of `generate_review` on IDENTICAL declared
inputs but different hidden `random.choice` draws produce different strength
lists, and two runs on different days produce different `review_date`
fields — the output is not a function of the declared inputs alone. -/
theorem C2_hidden_randomness_counterexample :
    (generate_review "" cexCriteria "Peer Review" none [0, 0, 0, 0] "2024-01-01").strengths ≠
      (generate_review "" cexCriteria "Peer Review" none [1, 0, 0, 0] "2024-01-01").strengths ∧
    (generate_review "" cexCriteria "Peer Review" none [0, 0, 0, 0] "2024-01-01").review_date ≠
      (generate_review "" cexCriteria "Peer Review" none [0, 0, 0, 0] "2024-01-02").review_date := by
  constructor
  · decide
  · decide

/-! ## C8: behaviour on the empty string -/

/-- C8 (amended): for the empty string `get_text_statistics` returns the
EMPTY dict — a result object with no count keys at all, not a zero-filled
one — regardless of how the non-empty branch computes its statistics; and
`extract_sections` returns an empty section map (no pattern matches the
empty text), without raising. -/
theorem C8_empty_input_behaviour :
    (∀ body : String → TextStats, get_text_statistics body "" = none) ∧
    extract_sections "" = [] := by
  constructor
  · intro body
    rfl
  · decide

/-- C8 counterexample: even if the statistics body would return all-zero
counts, the empty string produces the empty dict (`none`), not the all-zero
record the claim promises. -/
theorem C8_empty_stats_not_zero_filled :
    get_text_statistics (fun _ => zeroTextStats) "" = none ∧
    get_text_statistics (fun _ => zeroTextStats) "" ≠ some zeroTextStats := by
  exact ⟨rfl, by simp [get_text_statistics]⟩

/-! ## C5: the two citation-density computations disagree -/

/-- C5: the spec's single definition — unique citations per 1000 words — is
computed by `pdf_processor.count_citations`, but
`citation_extractor.get_citation_statistics` computes citations per word
(no `× 1000`): on the same text containing the citation `[1]` among three
words, one module reports 1000/3 and the other 1/3.  The spec directs that
such divergence be treated as a bug. -/
theorem C5_citation_density_modules_disagree :
    (count_citations "[1] a b").citation_density = 1000 / 3 ∧
    extractor_citation_density "[1] a b" = 1 / 3 ∧
    (count_citations "[1] a b").citation_density ≠ extractor_citation_density "[1] a b" := by
  have hc : (pdf_all_citations "[1] a b").dedup.length = 1 := by decide
  have hw : (pySplit "[1] a b").length = 3 := by decide
  have he : (extract_citations "[1] a b").length = 1 := by decide
  have h1 : (count_citations "[1] a b").citation_density = 1000 / 3 := by
    simp [count_citations, hc, hw]
    norm_num
  have h2 : extractor_citation_density "[1] a b" = 1 / 3 := by
    simp [extractor_citation_density, he, hw]
  refine ⟨h1, h2, ?_⟩
  rw [h1, h2]
  norm_num

/-! ## C6: the recent-citation statistic is broken by a findall group -/

/-- `tryYear` only ever produces 19 or 20: `re.findall(r'\b(19|20)\d{2}\b', ...)`
returns the capture group `(19|20)`, so `int(...)` of it is 19 or 20 —
never a four-digit year. -/
theorem tryYear_mem (prev : Option Char) (s : List Char) (y : ℕ)
    (h : tryYear prev s = some y) : y = 19 ∨ y = 20 := by
  match s with
  | [] => simp [tryYear] at h
  | [_] => simp [tryYear] at h
  | [_, _] => simp [tryYear] at h
  | [_, _, _] => simp [tryYear] at h
  | c1 :: c2 :: c3 :: c4 :: rest =>
    simp only [tryYear] at h
    split at h
    next hcond =>
      injection h with h'
      subst h'
      simp only [Bool.and_eq_true, Bool.or_eq_true, decide_eq_true_eq] at hcond
      obtain ⟨⟨⟨⟨-, hB⟩, -⟩, -⟩, -⟩ := hcond
      rcases hB with ⟨hc1, hc2⟩ | ⟨hc1, hc2⟩ <;> subst hc1 <;> subst hc2
      · left; decide
      · right; decide
    next => simp at h

/-- Every value of the year scanner is 19 or 20. -/
theorem yearScan_mem (y : ℕ) :
    ∀ (prev : Option Char) (s : List Char), y ∈ yearScan prev s → y = 19 ∨ y = 20 := by
  intro prev s
  induction s generalizing prev with
  | nil => intro h; simp [yearScan] at h
  | cons c cs ih =>
    intro h
    unfold yearScan at h
    cases htry : tryYear prev (c :: cs) with
    | some y' =>
      rw [htry] at h
      rcases List.mem_cons.mp h with h1 | h2
      · subst h1; exact tryYear_mem _ _ _ htry
      · exact ih _ h2
    | none =>
      rw [htry] at h
      exact ih _ h

/-- C6: for EVERY input text, `count_citations` reports 0 recent citations.
The code collects `re.findall(r'\b(19|20)\d{2}\b', ...)` group values — the
two-character century prefixes 19/20, not four-digit years — so no
"year" ever reaches the `>= 2024 - 10` window.  On the failing input
`"(Li, 2020)"` the claim expects `recent_citations = 1` (2020 ≥ 2014) and a
mean cited year of 2020; the code gives 0 recent citations and a mean
"year" of 20. -/
theorem C6_recent_citations_always_zero :
    (∀ text : String, (count_citations text).recent_citations = 0) ∧
    (count_citations "(Li, 2020)").total_citations = 1 ∧
    (count_citations "(Li, 2020)").recent_citations = 0 ∧
    (count_citations "(Li, 2020)").avg_year = 20 := by
  refine ⟨?_, by decide, by decide, ?_⟩
  · intro text
    show ((pdf_citation_years text).dedup.filter (fun y => 2024 - 10 ≤ y)).length = 0
    rw [List.length_eq_zero]
    rw [List.filter_eq_nil_iff]
    intro y hy
    have hmem : y ∈ pdf_citation_years text := List.mem_dedup.mp hy
    have h1920 : y = 19 ∨ y = 20 := by
      unfold pdf_citation_years at hmem
      rcases List.mem_flatMap.mp hmem with ⟨m, _, hm⟩
      exact yearScan_mem y none m hm
    rcases h1920 with h | h <;> subst h <;> decide
  · have hyrs : (pdf_citation_years "(Li, 2020)").dedup = [20] := by decide
    simp [count_citations, hyrs]

/-! ## C7: repeated citation markers are counted once — per module -/

/-- On a list of citations that all share one non-empty signature,
`_deduplicate_citations` keeps exactly one (none if the signature was
already seen). -/
theorem dedupBySig_const (s0 : String) (hs : s0 ≠ "") :
    ∀ (l : List String) (seen : List String), (∀ c ∈ l, citation_signature c = s0) →
      (dedupBySig seen l).length = if seen.contains s0 then 0 else min 1 l.length := by
  intro l
  induction l with
  | nil =>
    intro seen _
    simp [dedupBySig]
  | cons c rest ih =>
    intro seen h
    have hc : citation_signature c = s0 := h c (List.mem_cons_self c rest)
    have hrest : ∀ x ∈ rest, citation_signature x = s0 :=
      fun x hx => h x (List.mem_cons_of_mem c hx)
    simp only [dedupBySig, hc]
    by_cases hseen : seen.contains s0 = true
    · rw [if_neg (by rw [hseen]; simp)]
      rw [ih seen hrest, if_pos hseen, if_pos hseen]
    · have hseen' : seen.contains s0 = false := by
        revert hseen
        cases seen.contains s0 <;> simp
      rw [if_pos (by rw [hseen']; simp [hs])]
      simp only [List.length_cons]
      rw [ih (s0 :: seen) hrest]
      rw [if_pos (by simp), if_neg hseen]
      omega

/-- C7 (amended): deduplication behaviour is per-module.  In
`citation_extractor` the signature is the trimmed LOWERCASED raw text, so N
repeats of a marker identical up to letter case and surrounding whitespace
are counted once — shown in general for `_deduplicate_citations` and
concretely for `extract_citations` on a case-variant pair.  (In
`pdf_processor.count_citations` deduplication is by EXACT matched text, so
case-variant repeats there can count more than once; see the
counterexample.) -/
theorem C7_extractor_dedup_counts_once :
    (∀ (l : List String) (s0 : String), s0 ≠ "" → l ≠ [] →
      (∀ c ∈ l, citation_signature c = s0) →
      (deduplicate_citations l).length = 1) ∧
    extract_citations "(Li, 2020) (LI, 2020)" = ["(Li, 2020)"] := by
  constructor
  · intro l s0 hs hl hall
    unfold deduplicate_citations
    rw [dedupBySig_const s0 hs l [] hall]
    have hpos : 0 < l.length := List.length_pos.mpr hl
    simp
    omega
  · decide

/-- C7 counterexample: the same author-year marker repeated with different
letter case — `(Li, 2020)` and `(LI, 2020)` — is counted TWICE by
`pdf_processor.count_citations`, whose `list(set(...))` deduplicates by
exact matched text; the claim promises a count of 1. -/
theorem C7_pdf_dedup_case_sensitive_counterexample :
    (count_citations "(Li, 2020) (LI, 2020)").total_citations = 2 ∧ (2 : ℕ) ≠ 1 :=
  ⟨by decide, by decide⟩

/-- C7 witness: a concrete three-copy list (case and whitespace variants of
one marker) deduplicates to exactly one citation. -/
theorem C7_extractor_dedup_counts_once_witness :
    ("(li, 2020)" : String) ≠ "" ∧
    (["(Li, 2020)", " (li, 2020) ", "(LI, 2020)"] : List String) ≠ [] ∧
    (∀ c ∈ (["(Li, 2020)", " (li, 2020) ", "(LI, 2020)"] : List String),
      citation_signature c = "(li, 2020)") ∧
    (deduplicate_citations ["(Li, 2020)", " (li, 2020) ", "(LI, 2020)"]).length = 1 :=
  ⟨by decide, by decide, by decide,
   C7_extractor_dedup_counts_once.1 ["(Li, 2020)", " (li, 2020) ", "(LI, 2020)"]
     "(li, 2020)" (by decide) (by decide) (by decide)⟩

/-! ## C4: the methodology criterion score -/

/-- The methodology score as the claim words it: prior plus an adjustment of
0 / +1 / +2 (+1 if a methodology section is present, a further +1 if a
results section is present), clamped to [1, 10].  Stated from the claim for
comparison with `calculate_scores`. -/
def methodology_score_as_claimed (w : ℤ) (hasM hasR : Bool) : ℚ :=
  clamp110 ((w : ℚ) + ((if hasM then 1 else 0) + (if hasR then 1 else 0)))

/-- C4 (amended): when structure features are available the methodology
score equals the caller-supplied prior plus `-1`, `0` or `+1`: the code
adds +1 per present section but then subtracts 1 before clamping
(`methodology_score + method_adjustment - 1` on line 198), so the
adjustment is `(has_methodology ? 1 : 0) + (has_results ? 1 : 0) - 1`,
clamped to [1, 10] — not the claimed 0 / +1 / +2. -/
theorem C4_methodology_score (criteria : List (String × ℤ)) (ar : AnalysisResults)
    (st : StructureInfo) (h : ar.structInfo = some st) :
    List.lookup "methodology" (calculate_scores criteria (some ar)) =
      some (clamp110 (baseScore criteria "methodology" 7 +
        ((if st.has_methodology.getD false then 1 else 0) +
         (if st.has_results.getD false then 1 else 0)) - 1)) := by
  rcases ar with ⟨k, si, rd, ci, q⟩
  simp only at h
  subst h
  rcases k with _ | kv <;> rcases rd with _ | rv <;> rcases ci with _ | cv <;>
    rcases q with _ | qv <;>
    simp [calculate_scores, List.lookup]

/-- C4 witness: with a methodology prior of 9, a present methodology section
and an absent results section, the score is `min(10, max(1, 9 + 1 - 1)) = 9`. -/
theorem C4_methodology_score_witness :
    (AnalysisResults.mk none (some (StructureInfo.mk (some true) (some false) none none none))
        none none none).structInfo =
      some (StructureInfo.mk (some true) (some false) none none none) ∧
    List.lookup "methodology" (calculate_scores [("methodology", (9 : ℤ))]
      (some (AnalysisResults.mk none
        (some (StructureInfo.mk (some true) (some false) none none none)) none none none))) =
      some 9 := by
  constructor
  · rfl
  · rw [C4_methodology_score [("methodology", (9 : ℤ))] _
      (StructureInfo.mk (some true) (some false) none none none) rfl]
    norm_num [baseScore, clamp110]

/-- C4 counterexample: prior 7 with structure features present but neither a
methodology nor a results section yields score 6, not the 7 the claimed
0 / +1 / +2 adjustment predicts. -/
theorem C4_methodology_score_counterexample :
    List.lookup "methodology" (calculate_scores [("methodology", (7 : ℤ))]
      (some (AnalysisResults.mk none
        (some (StructureInfo.mk (some false) (some false) none none none)) none none none))) =
      some 6 ∧
    methodology_score_as_claimed 7 false false = 7 ∧
    (6 : ℚ) ≠ 7 := by
  refine ⟨?_, ?_, by norm_num⟩
  · norm_num [calculate_scores, baseScore, clamp110, List.lookup]
  · norm_num [methodology_score_as_claimed, clamp110]

/-! ## C1: monotonicity of the overall score in one criterion weight -/

/-- The four review criteria. -/
inductive Crit where
  | novelty
  | methodology
  | clarity
  | significance
deriving DecidableEq

/-- A full four-criterion weights map, as `generate_review` receives it. -/
def weightsOf (w : Crit → ℤ) : List (String × ℤ) :=
  [("novelty", w .novelty), ("methodology", w .methodology),
   ("clarity", w .clarity), ("significance", w .significance)]

/-- The per-criterion score `_calculate_scores` assigns on a full
four-criterion weights map, as a function of that criterion's own weight:
the weight (prior), plus a clamped feature adjustment when the criterion's
feature inputs are present.  (Each adjustment depends only on the
`FeatureSet`, never on the weights.) -/
def scoreOf (analysis : Option AnalysisResults) (c : Crit) (wv : ℤ) : ℚ :=
  match analysis with
  | none => (wv : ℚ)
  | some ar =>
    match c with
    | .novelty =>
      match ar.keywords with
      | some kw => clamp110 ((wv : ℚ) + (kw.academic_keyword_coverage.getD 0) / 5 * 2 - 1)
      | none => (wv : ℚ)
    | .methodology =>
      match ar.structInfo with
      | some st => clamp110 ((wv : ℚ) +
          ((if st.has_methodology.getD false then 1 else 0) +
           (if st.has_results.getD false then 1 else 0)) - 1)
      | none => (wv : ℚ)
    | .clarity =>
      match ar.readability with
      | some rd => clamp110 ((wv : ℚ) +
          (if rd.flesch_score.getD 50 ≥ 60 then (rd.flesch_score.getD 50 - 60) / 20
           else (rd.flesch_score.getD 50 - 60) / 30))
      | none => (wv : ℚ)
    | .significance =>
      match ar.citations, ar.academic_quality with
      | some ci, some q => clamp110 ((wv : ℚ) +
          ((ci.citation_density.getD (1 / 2) - 1 / 2) * 2 + npMean (q.map (·.2)) * 2) - 1)
      | _, _ => (wv : ℚ)

/-- The overall score of the pipeline on a full four-criterion weights map. -/
def overall4 (analysis : Option AnalysisResults) (w : Crit → ℤ) : ℚ :=
  calculate_overall_score (calculate_scores (weightsOf w) analysis) (weightsOf w)

theorem total_weight_weightsOf (w : Crit → ℤ) :
    total_weight (weightsOf w) =
      w .novelty + w .methodology + w .clarity + w .significance := by
  simp [total_weight, weightsOf]
  ring

theorem weighted_sum_calculate_scores (analysis : Option AnalysisResults) (w : Crit → ℤ) :
    weighted_sum (calculate_scores (weightsOf w) analysis) (weightsOf w) =
      scoreOf analysis .novelty (w .novelty) * ((w .novelty : ℤ) : ℚ) +
      scoreOf analysis .methodology (w .methodology) * ((w .methodology : ℤ) : ℚ) +
      scoreOf analysis .clarity (w .clarity) * ((w .clarity : ℤ) : ℚ) +
      scoreOf analysis .significance (w .significance) * ((w .significance : ℤ) : ℚ) := by
  rcases analysis with _ | ⟨k, si, rd, ci, q⟩
  · simp [weighted_sum, calculate_scores, weightsOf, baseScore, scoreOf, List.lookup]
    ring
  · rcases k with _ | kv <;> rcases si with _ | sv <;> rcases rd with _ | rv <;>
      rcases ci with _ | cv <;> rcases q with _ | qv <;>
      simp [weighted_sum, calculate_scores, weightsOf, baseScore, scoreOf, List.lookup] <;>
      ring

theorem overall4_eq (analysis : Option AnalysisResults) (w : Crit → ℤ)
    (hpos : 0 < w .novelty + w .methodology + w .clarity + w .significance) :
    overall4 analysis w =
      (scoreOf analysis .novelty (w .novelty) * ((w .novelty : ℤ) : ℚ) +
       scoreOf analysis .methodology (w .methodology) * ((w .methodology : ℤ) : ℚ) +
       scoreOf analysis .clarity (w .clarity) * ((w .clarity : ℤ) : ℚ) +
       scoreOf analysis .significance (w .significance) * ((w .significance : ℤ) : ℚ)) /
      (((w .novelty : ℤ) : ℚ) + ((w .methodology : ℤ) : ℚ) +
       ((w .clarity : ℤ) : ℚ) + ((w .significance : ℤ) : ℚ)) := by
  unfold overall4 calculate_overall_score
  rw [total_weight_weightsOf, weighted_sum_calculate_scores, if_pos hpos]
  push_cast
  ring

/-- Clamping is monotone. -/
theorem clamp110_mono {x y : ℚ} (h : x ≤ y) : clamp110 x ≤ clamp110 y :=
  min_le_min le_rfl (max_le_max le_rfl h)

/-- Every per-criterion score is monotone in that criterion's weight. -/
theorem scoreOf_mono (analysis : Option AnalysisResults) (c : Crit) {v v' : ℤ}
    (h : v ≤ v') : scoreOf analysis c v ≤ scoreOf analysis c v' := by
  have hq : ((v : ℤ) : ℚ) ≤ ((v' : ℤ) : ℚ) := by exact_mod_cast h
  rcases analysis with _ | ⟨k, si, rd, ci, q⟩
  · simpa [scoreOf] using hq
  · cases c
    case novelty =>
      rcases k with _ | kv
      · simpa [scoreOf] using hq
      · simp only [scoreOf]
        exact clamp110_mono (by linarith)
    case methodology =>
      rcases si with _ | sv
      · simpa [scoreOf] using hq
      · simp only [scoreOf]
        exact clamp110_mono (by linarith)
    case clarity =>
      rcases rd with _ | rv
      · simpa [scoreOf] using hq
      · simp only [scoreOf]
        exact clamp110_mono (by linarith)
    case significance =>
      rcases ci with _ | cv <;> rcases q with _ | qv <;> simp only [scoreOf]
      · exact hq
      · exact hq
      · exact hq
      · exact clamp110_mono (by linarith)

/-- The key weighted-mean step: adding weight to a component whose score is
at least the current mean (and not decreasing that score) cannot lower the
mean. -/
theorem wmean_step (s s' R w w' W : ℚ) (hw : 0 < w) (hww : w ≤ w') (hW : 0 ≤ W)
    (hss : s ≤ s') (hmean : (s * w + R) / (w + W) ≤ s) :
    (s * w + R) / (w + W) ≤ (s' * w' + R) / (w' + W) := by
  have hD : 0 < w + W := by linarith
  have hD' : 0 < w' + W := by linarith
  have hA : s * w + R ≤ s * (w + W) := by
    have h0 := (div_le_iff hD).mp hmean
    linarith
  rw [div_le_div_iff hD hD']
  have hp1 : 0 ≤ (s' - s) * w' * (w + W) :=
    mul_nonneg (mul_nonneg (sub_nonneg.mpr hss) (by linarith)) hD.le
  have hp2 : 0 ≤ (w' - w) * (s * (w + W) - (s * w + R)) :=
    mul_nonneg (sub_nonneg.mpr hww) (sub_nonneg.mpr hA)
  nlinarith [hp1, hp2]

/-- C1 (amended): with the `FeatureSet` fixed and all weights integers in
[1, 10], increasing one criterion's weight (the other three held fixed)
never decreases the overall score PROVIDED the increased criterion's own
(adjusted) score, at the original weights, is at least the original overall
score.  Without that proviso the claim is false — see the counterexample:
because the overall score is a weighted mean whose weights are also the
priors, shifting weight onto a low-scoring criterion drags the mean down. -/
theorem C1_overall_monotone_amended (analysis : Option AnalysisResults)
    (w w' : Crit → ℤ) (c : Crit)
    (hlo : ∀ d, 1 ≤ w d) (hhi : ∀ d, w d ≤ 10)
    (hlo' : ∀ d, 1 ≤ w' d) (hhi' : ∀ d, w' d ≤ 10)
    (hfix : ∀ d, d ≠ c → w' d = w d) (hinc : w c ≤ w' c)
    (hscore : overall4 analysis w ≤ scoreOf analysis c (w c)) :
    overall4 analysis w ≤ overall4 analysis w' := by
  have hpos : 0 < w .novelty + w .methodology + w .clarity + w .significance := by
    have h1 := hlo .novelty
    have h2 := hlo .methodology
    have h3 := hlo .clarity
    have h4 := hlo .significance
    omega
  have hpos' : 0 < w' .novelty + w' .methodology + w' .clarity + w' .significance := by
    have h1 := hlo' .novelty
    have h2 := hlo' .methodology
    have h3 := hlo' .clarity
    have h4 := hlo' .significance
    omega
  have hbq : (0 : ℚ) ≤ ((w .methodology : ℤ) : ℚ) := by
    exact_mod_cast (by have := hlo .methodology; omega : (0 : ℤ) ≤ w .methodology)
  have haq : (0 : ℚ) ≤ ((w .novelty : ℤ) : ℚ) := by
    exact_mod_cast (by have := hlo .novelty; omega : (0 : ℤ) ≤ w .novelty)
  have hcq : (0 : ℚ) ≤ ((w .clarity : ℤ) : ℚ) := by
    exact_mod_cast (by have := hlo .clarity; omega : (0 : ℤ) ≤ w .clarity)
  have hdq : (0 : ℚ) ≤ ((w .significance : ℤ) : ℚ) := by
    exact_mod_cast (by have := hlo .significance; omega : (0 : ℤ) ≤ w .significance)
  rw [overall4_eq analysis w hpos] at hscore ⊢
  rw [overall4_eq analysis w' hpos']
  cases c
  case novelty =>
    rw [hfix .methodology (by decide), hfix .clarity (by decide),
      hfix .significance (by decide)]
    have ha : (0 : ℚ) < ((w Crit.novelty : ℤ) : ℚ) := by
      exact_mod_cast (by have := hlo .novelty; omega : (0 : ℤ) < w Crit.novelty)
    have haa : ((w Crit.novelty : ℤ) : ℚ) ≤ ((w' Crit.novelty : ℤ) : ℚ) := by
      exact_mod_cast hinc
    set sN := scoreOf analysis .novelty (w .novelty)
    set sN' := scoreOf analysis .novelty (w' .novelty)
    set sM := scoreOf analysis .methodology (w .methodology)
    set sC := scoreOf analysis .clarity (w .clarity)
    set sS := scoreOf analysis .significance (w .significance)
    set a := ((w Crit.novelty : ℤ) : ℚ)
    set a' := ((w' Crit.novelty : ℤ) : ℚ)
    set b := ((w Crit.methodology : ℤ) : ℚ)
    set cc := ((w Crit.clarity : ℤ) : ℚ)
    set dd := ((w Crit.significance : ℤ) : ℚ)
    have hss : sN ≤ sN' := scoreOf_mono analysis .novelty hinc
    calc (sN * a + sM * b + sC * cc + sS * dd) / (a + b + cc + dd)
        = (sN * a + (sM * b + sC * cc + sS * dd)) / (a + (b + cc + dd)) := by ring
      _ ≤ (sN' * a' + (sM * b + sC * cc + sS * dd)) / (a' + (b + cc + dd)) := by
          refine wmean_step sN sN' (sM * b + sC * cc + sS * dd) a a' (b + cc + dd)
            ha haa (by linarith) hss ?_
          calc (sN * a + (sM * b + sC * cc + sS * dd)) / (a + (b + cc + dd))
              = (sN * a + sM * b + sC * cc + sS * dd) / (a + b + cc + dd) := by ring
            _ ≤ sN := hscore
      _ = (sN' * a' + sM * b + sC * cc + sS * dd) / (a' + b + cc + dd) := by ring
  case methodology =>
    rw [hfix .novelty (by decide), hfix .clarity (by decide),
      hfix .significance (by decide)]
    have hb : (0 : ℚ) < ((w Crit.methodology : ℤ) : ℚ) := by
      exact_mod_cast (by have := hlo .methodology; omega : (0 : ℤ) < w Crit.methodology)
    have hbb : ((w Crit.methodology : ℤ) : ℚ) ≤ ((w' Crit.methodology : ℤ) : ℚ) := by
      exact_mod_cast hinc
    set sN := scoreOf analysis .novelty (w .novelty)
    set sM := scoreOf analysis .methodology (w .methodology)
    set sM' := scoreOf analysis .methodology (w' .methodology)
    set sC := scoreOf analysis .clarity (w .clarity)
    set sS := scoreOf analysis .significance (w .significance)
    set a := ((w Crit.novelty : ℤ) : ℚ)
    set b := ((w Crit.methodology : ℤ) : ℚ)
    set b' := ((w' Crit.methodology : ℤ) : ℚ)
    set cc := ((w Crit.clarity : ℤ) : ℚ)
    set dd := ((w Crit.significance : ℤ) : ℚ)
    have hss : sM ≤ sM' := scoreOf_mono analysis .methodology hinc
    calc (sN * a + sM * b + sC * cc + sS * dd) / (a + b + cc + dd)
        = (sM * b + (sN * a + sC * cc + sS * dd)) / (b + (a + cc + dd)) := by ring
      _ ≤ (sM' * b' + (sN * a + sC * cc + sS * dd)) / (b' + (a + cc + dd)) := by
          refine wmean_step sM sM' (sN * a + sC * cc + sS * dd) b b' (a + cc + dd)
            hb hbb (by linarith) hss ?_
          calc (sM * b + (sN * a + sC * cc + sS * dd)) / (b + (a + cc + dd))
              = (sN * a + sM * b + sC * cc + sS * dd) / (a + b + cc + dd) := by ring
            _ ≤ sM := hscore
      _ = (sN * a + sM' * b' + sC * cc + sS * dd) / (a + b' + cc + dd) := by ring
  case clarity =>
    rw [hfix .novelty (by decide), hfix .methodology (by decide),
      hfix .significance (by decide)]
    have hc : (0 : ℚ) < ((w Crit.clarity : ℤ) : ℚ) := by
      exact_mod_cast (by have := hlo .clarity; omega : (0 : ℤ) < w Crit.clarity)
    have hccp : ((w Crit.clarity : ℤ) : ℚ) ≤ ((w' Crit.clarity : ℤ) : ℚ) := by
      exact_mod_cast hinc
    set sN := scoreOf analysis .novelty (w .novelty)
    set sM := scoreOf analysis .methodology (w .methodology)
    set sC := scoreOf analysis .clarity (w .clarity)
    set sC' := scoreOf analysis .clarity (w' .clarity)
    set sS := scoreOf analysis .significance (w .significance)
    set a := ((w Crit.novelty : ℤ) : ℚ)
    set b := ((w Crit.methodology : ℤ) : ℚ)
    set cc := ((w Crit.clarity : ℤ) : ℚ)
    set cc' := ((w' Crit.clarity : ℤ) : ℚ)
    set dd := ((w Crit.significance : ℤ) : ℚ)
    have hss : sC ≤ sC' := scoreOf_mono analysis .clarity hinc
    calc (sN * a + sM * b + sC * cc + sS * dd) / (a + b + cc + dd)
        = (sC * cc + (sN * a + sM * b + sS * dd)) / (cc + (a + b + dd)) := by ring
      _ ≤ (sC' * cc' + (sN * a + sM * b + sS * dd)) / (cc' + (a + b + dd)) := by
          refine wmean_step sC sC' (sN * a + sM * b + sS * dd) cc cc' (a + b + dd)
            hc hccp (by linarith) hss ?_
          calc (sC * cc + (sN * a + sM * b + sS * dd)) / (cc + (a + b + dd))
              = (sN * a + sM * b + sC * cc + sS * dd) / (a + b + cc + dd) := by ring
            _ ≤ sC := hscore
      _ = (sN * a + sM * b + sC' * cc' + sS * dd) / (a + b + cc' + dd) := by ring
  case significance =>
    rw [hfix .novelty (by decide), hfix .methodology (by decide),
      hfix .clarity (by decide)]
    have hd : (0 : ℚ) < ((w Crit.significance : ℤ) : ℚ) := by
      exact_mod_cast (by have := hlo .significance; omega : (0 : ℤ) < w Crit.significance)
    have hddp : ((w Crit.significance : ℤ) : ℚ) ≤ ((w' Crit.significance : ℤ) : ℚ) := by
      exact_mod_cast hinc
    set sN := scoreOf analysis .novelty (w .novelty)
    set sM := scoreOf analysis .methodology (w .methodology)
    set sC := scoreOf analysis .clarity (w .clarity)
    set sS := scoreOf analysis .significance (w .significance)
    set sS' := scoreOf analysis .significance (w' .significance)
    set a := ((w Crit.novelty : ℤ) : ℚ)
    set b := ((w Crit.methodology : ℤ) : ℚ)
    set cc := ((w Crit.clarity : ℤ) : ℚ)
    set dd := ((w Crit.significance : ℤ) : ℚ)
    set dd' := ((w' Crit.significance : ℤ) : ℚ)
    have hss : sS ≤ sS' := scoreOf_mono analysis .significance hinc
    calc (sN * a + sM * b + sC * cc + sS * dd) / (a + b + cc + dd)
        = (sS * dd + (sN * a + sM * b + sC * cc)) / (dd + (a + b + cc)) := by ring
      _ ≤ (sS' * dd' + (sN * a + sM * b + sC * cc)) / (dd' + (a + b + cc)) := by
          refine wmean_step sS sS' (sN * a + sM * b + sC * cc) dd dd' (a + b + cc)
            hd hddp (by linarith) hss ?_
          calc (sS * dd + (sN * a + sM * b + sC * cc)) / (dd + (a + b + cc))
              = (sN * a + sM * b + sC * cc + sS * dd) / (a + b + cc + dd) := by ring
            _ ≤ sS := hscore
      _ = (sN * a + sM * b + sC * cc + sS' * dd') / (a + b + cc + dd') := by ring

/-- C1 witness: all weights 7 (so every score equals the overall score 7),
then raising the novelty weight to 9 satisfies the proviso and indeed does
not decrease the overall score. -/
theorem C1_overall_monotone_amended_witness :
    ((1 : ℤ) ≤ 7 ∧ (7 : ℤ) ≤ 10 ∧ (1 : ℤ) ≤ 9 ∧ (9 : ℤ) ≤ 10) ∧
    overall4 none (fun _ => 7) ≤ scoreOf none Crit.novelty 7 ∧
    overall4 none (fun _ => 7) ≤
      overall4 none (fun d => if d = Crit.novelty then 9 else 7) := by
  have hscore : overall4 none (fun _ => (7 : ℤ)) ≤
      scoreOf none Crit.novelty ((fun _ => (7 : ℤ)) Crit.novelty) := by
    rw [overall4_eq none (fun _ => (7 : ℤ)) (by decide)]
    norm_num [scoreOf]
  refine ⟨⟨by norm_num, by norm_num, by norm_num, by norm_num⟩, hscore, ?_⟩
  exact C1_overall_monotone_amended none (fun _ => 7)
    (fun d => if d = Crit.novelty then 9 else 7) Crit.novelty
    (by intro d; cases d <;> decide) (by intro d; cases d <;> decide)
    (by intro d; cases d <;> decide) (by intro d; cases d <;> decide)
    (by intro d hd
        cases d
        · exact absurd rfl hd
        · rfl
        · rfl
        · rfl)
    (by decide) hscore

/-- C1 counterexample: with no analysis results every criterion score equals
its weight.  At weights (novelty 1, others 10) the overall score is
301/31 ≈ 9.71; raising ONLY the novelty weight from 1 to 2 (all weights
still in [1, 10], the FeatureSet fixed) yields 304/32 = 9.5 — the overall
score strictly DECREASES, refuting the claim as stated. -/
theorem C1_weight_increase_decreases_overall :
    overall4 none (fun d => if d = Crit.novelty then 2 else 10) <
      overall4 none (fun d => if d = Crit.novelty then 1 else 10) := by
  have hne1 : ¬ (Crit.methodology = Crit.novelty) := by decide
  have hne2 : ¬ (Crit.clarity = Crit.novelty) := by decide
  have hne3 : ¬ (Crit.significance = Crit.novelty) := by decide
  have h1 : overall4 none (fun d => if d = Crit.novelty then (1 : ℤ) else 10) = 301 / 31 := by
    rw [overall4_eq none _ (by decide)]
    norm_num [scoreOf, hne1, hne2, hne3]
  have h2 : overall4 none (fun d => if d = Crit.novelty then (2 : ℤ) else 10) = 19 / 2 := by
    rw [overall4_eq none _ (by decide)]
    norm_num [scoreOf, hne1, hne2, hne3]
  rw [h1, h2]
  norm_num
